import Mathlib

/-!
Shallow embedding of the loan/balance/interest logic of the Griha-Sajjwa
finance application. Each UI component that computes derived values is
modelled as a namespace of pure functions over explicit inputs: the rows the
component fetched (loans, transactions), the current date, and — for the
effectful handlers — the result of each remote call, passed in as an
`Except`. JavaScript numbers are modelled as `ℚ`; a JavaScript `Date` is
modelled by its millisecond timestamp together with its calendar fields.
-/

/-- Model of a JavaScript `Date`: `time` is `getTime()` in milliseconds,
`year`/`month`/`day` are `getFullYear()`/`getMonth()`/`getDate()`. The fields
are kept independent because the components only ever read them separately. -/
structure JSDate where
  time : ℤ
  year : ℤ
  month : ℤ
  day : ℤ
deriving DecidableEq

/-- A row of the `loans` table as the components select it. -/
structure Loan where
  id : String
  loan_number : String
  principal_amount : ℚ
  interest_rate : ℚ
  interest_type : String
  loan_date : JSDate
  due_date : Option JSDate
  description : Option String
  is_active : Bool
deriving DecidableEq

/-- A row of the `loan_transactions` table. -/
structure LoanTransaction where
  id : String
  loan_id : String
  amount : ℚ
  payment_date : JSDate
  transaction_type : String
  notes : Option String
deriving DecidableEq

/-- A toast notification as issued by the `useToast` hook; error toasts carry
`variant = some "destructive"`. -/
structure Toast where
  title : String
  description : String
  variant : Option String
deriving DecidableEq

namespace LoansList

/-- Function `calculateLoanBalance` of `LoansList.tsx`: principal of the loan found by
id minus the sum of the amounts of the transactions filtered to that loan;
`0` when no loan with that id is in the fetched list. -/
def calculateLoanBalance (loans : List Loan) (transactions : List LoanTransaction)
    (loanId : String) : ℚ :=
  let loanTransactions := transactions.filter (fun t => t.loan_id == loanId)
  let totalPaid := loanTransactions.foldl (fun sum t => sum + t.amount) 0
  match loans.find? (fun l => l.id == loanId) with
  | some loan => loan.principal_amount - totalPaid
  | none => 0

/-- Function `calculateInterest` of `LoansList.tsx`. -/
def calculateInterest (loan : Loan) (balance : ℚ) (currentDate : JSDate) : ℚ :=
  if loan.interest_type == "none" || loan.interest_rate == 0 then 0 else
  let loanDate := loan.loan_date
  let rate := loan.interest_rate / 100
  if loan.interest_type == "daily" then
    let timeDiff : ℤ := currentDate.time - loanDate.time
    let daysDiff : ℤ := Int.ceil ((timeDiff : ℚ) / (1000 * 3600 * 24))
    balance * rate * ((daysDiff : ℚ) / 365)
  else if loan.interest_type == "monthly" then
    let months : ℤ := (currentDate.year - loanDate.year) * 12 +
                      (currentDate.month - loanDate.month)
    let daysInMonth : ℚ := ((currentDate.day - loanDate.day : ℤ) : ℚ) / 30
    let totalMonths : ℚ := (months : ℚ) + daysInMonth
    balance * rate * totalMonths
  else 0

/-- Function `calculateOutstandingAmount` of `LoansList.tsx`. -/
def calculateOutstandingAmount (loans : List Loan) (transactions : List LoanTransaction)
    (currentDate : JSDate) (loan : Loan) : ℚ :=
  let balance := calculateLoanBalance loans transactions loan.id
  let interest := calculateInterest loan balance currentDate
  balance + interest

/-- The component state touched by the remote-call handlers of `LoansList.tsx`. -/
structure ComponentState where
  loans : List Loan
  transactions : List LoanTransaction
  loading : Bool
deriving DecidableEq

/-- Function `fetchLoans` of `LoansList.tsx`, with the remote query result passed in:
on success the loans state is replaced, on failure a destructive toast is
issued and the state is only updated by the `finally` clearing `loading`. -/
def fetchLoans (result : Except String (List Loan)) (s : ComponentState) :
    ComponentState × List Toast :=
  match result with
  | Except.ok data => ({ s with loans := data, loading := false }, [])
  | Except.error _ =>
      ({ s with loading := false },
       [{ title := "Error", description := "Failed to fetch loans",
          variant := some "destructive" }])

/-- Function `fetchTransactions` of `LoansList.tsx`. -/
def fetchTransactions (result : Except String (List LoanTransaction))
    (s : ComponentState) : ComponentState × List Toast :=
  match result with
  | Except.ok data => ({ s with transactions := data }, [])
  | Except.error _ =>
      (s, [{ title := "Error", description := "Failed to fetch transactions",
             variant := some "destructive" }])

/-- Function `handlePayment` of `LoansList.tsx`: on insert failure the catch branch
issues one destructive toast and leaves the state alone; on success it toasts
and refetches (each refetch catching its own errors). -/
def handlePayment (insertResult : Except String Unit)
    (loansResult : Except String (List Loan))
    (txResult : Except String (List LoanTransaction))
    (s : ComponentState) : ComponentState × List Toast :=
  match insertResult with
  | Except.error _ =>
      (s, [{ title := "Error", description := "Failed to record payment",
             variant := some "destructive" }])
  | Except.ok _ =>
      let successToast : Toast :=
        { title := "Payment recorded",
          description := "The payment has been successfully recorded.",
          variant := none }
      let r1 := fetchLoans loansResult s
      let r2 := fetchTransactions txResult r1.1
      (r2.1, successToast :: (r1.2 ++ r2.2))

/-- Function `handleQuickDelete` of `LoansList.tsx`: only the loan-row delete checks
its error; on failure the catch branch toasts `error.message` (or the default
text) and leaves the local state alone. -/
def handleQuickDelete (deleteLoanResult : Except String Unit)
    (s : ComponentState) : ComponentState × List Toast :=
  match deleteLoanResult with
  | Except.error e =>
      (s, [{ title := "Error",
             description := if e == "" then "Failed to delete loan." else e,
             variant := some "destructive" }])
  | Except.ok _ =>
      (s, [{ title := "Success", description := "Loan deleted successfully!",
             variant := none }])

end LoansList

namespace CustomerDetails

/-- Function `calculateInterest` of the `CustomerDetails` component: only the
`simple` and `compound` interest types yield a nonzero value, computed from
the principal (not the balance). -/
def calculateInterest (loan : Loan) (currentDate : JSDate) : ℚ :=
  if loan.interest_rate == 0 || loan.interest_type == "none" then 0 else
  let principal := loan.principal_amount
  let rate := loan.interest_rate / 100
  if loan.interest_type == "simple" then
    let months : ℤ := (currentDate.year - loan.loan_date.year) * 12 +
                      (currentDate.month - loan.loan_date.month)
    principal * rate * ((months : ℚ) / 12)
  else if loan.interest_type == "compound" then
    let months : ℤ := (currentDate.year - loan.loan_date.year) * 12 +
                      (currentDate.month - loan.loan_date.month)
    principal * ((1 + rate / 12) ^ months - 1)
  else 0

/-- Function `calculateLoanBalance` of the `CustomerDetails` component. -/
def calculateLoanBalance (transactions : List LoanTransaction) (loan : Loan) : ℚ :=
  let loanTransactions := transactions.filter (fun t => t.loan_id == loan.id)
  let totalPaid := loanTransactions.foldl (fun sum t => sum + t.amount) 0
  loan.principal_amount - totalPaid

/-- Function `calculateOutstandingAmount` of the `CustomerDetails` component. -/
def calculateOutstandingAmount (transactions : List LoanTransaction)
    (currentDate : JSDate) (loan : Loan) : ℚ :=
  let balance := calculateLoanBalance transactions loan
  let interest := calculateInterest loan currentDate
  balance + interest

end CustomerDetails

namespace CustomersList

/-- Function `calculateLoanBalance` of `CustomersList`. -/
def calculateLoanBalance (allTransactions : List LoanTransaction) (loan : Loan) : ℚ :=
  let loanTransactions := allTransactions.filter (fun t => t.loan_id == loan.id)
  let totalPaid := loanTransactions.foldl (fun sum t => sum + t.amount) 0
  loan.principal_amount - totalPaid

/-- The slice of a customer row used by `deleteCustomer`. -/
structure Customer where
  id : String
  name : String
  loans : List Loan
deriving DecidableEq

/-- The active-loan test of `deleteCustomer`:
`customer?.loans?.some(loan => loan.is_active)` on the customer found by id
(`false` when the customer is not in the list). -/
def hasActiveLoans (customers : List Customer) (id : String) : Bool :=
  match customers.find? (fun c => c.id == id) with
  | some c => c.loans.any (fun loan => loan.is_active)
  | none => false

/-- Function `deleteCustomer` of `CustomersList`, with the transaction query result
and the remote delete result passed in. Returns whether a delete request was
issued, the new customer list state, and the toasts raised. -/
def deleteCustomer (customers : List Customer) (id : String)
    (transactionsResult : List String) (deleteResult : Except String Unit) :
    Bool × List Customer × List Toast :=
  if hasActiveLoans customers id then
    (false, customers,
     [{ title := "Cannot delete customer",
        description := "Customer has active loans. Complete all loans before deleting.",
        variant := some "destructive" }])
  else if 0 < transactionsResult.length then
    (false, customers,
     [{ title := "Cannot delete customer",
        description := "Customer has transaction history. Cannot delete customer with transactions.",
        variant := some "destructive" }])
  else
    match deleteResult with
    | Except.error _ =>
        (true, customers,
         [{ title := "Error", description := "Failed to delete customer",
            variant := some "destructive" }])
    | Except.ok _ =>
        (true, customers.filter (fun c => c.id != id),
         [{ title := "Customer deleted",
            description := "The customer has been successfully deleted.",
            variant := none }])

end CustomersList

namespace DaywiseCustomerManager

/-- A nested `loan_transactions ( amount )` row from the loans select. -/
structure TxnAmount where
  amount : ℚ
deriving DecidableEq

/-- A loan row as fetched by the daywise manager, before the balance is
attached. -/
structure LoanRow where
  id : String
  customer_id : String
  principal_amount : ℚ
  is_active : Bool
  loan_transactions : List TxnAmount
deriving DecidableEq

/-- A loan with the `outstanding_balance` field the manager attaches. -/
structure DLoan where
  id : String
  customer_id : String
  principal_amount : ℚ
  is_active : Bool
  loan_transactions : List TxnAmount
  outstanding_balance : ℚ
deriving DecidableEq

/-- The balance attachment inside `fetchCustomers`:
`outstanding_balance = Math.max(0, principal_amount - paidAmount)`. -/
def loanWithBalance (loan : LoanRow) : DLoan :=
  let paidAmount := loan.loan_transactions.foldl (fun sum t => sum + t.amount) 0
  let outstandingBalance := max 0 (loan.principal_amount - paidAmount)
  { id := loan.id, customer_id := loan.customer_id,
    principal_amount := loan.principal_amount, is_active := loan.is_active,
    loan_transactions := loan.loan_transactions,
    outstanding_balance := outstandingBalance }

/-- A customer with the loans (and balances) attached by `fetchCustomers`. -/
structure Customer where
  id : String
  name : String
  phone : Option String
  address : Option String
  payment_day : Option String
  loans : List DLoan
deriving DecidableEq

/-- A `loan_transactions` insert row built by `handlePaymentSubmit`. -/
structure NewTransaction where
  loan_id : String
  amount : ℚ
  transaction_type : String
  notes : String
deriving DecidableEq

/-- The per-loan transaction list built by `handlePaymentSubmit`: one row for
every active loan with truthy positive outstanding balance, paying the full
entered amount or the remaining balance, whichever is smaller. -/
def paymentTransactions (customer : Customer) (amount : ℚ) : List NewTransaction :=
  customer.loans.filterMap (fun loan =>
    if loan.is_active ∧ loan.outstanding_balance ≠ 0 ∧ loan.outstanding_balance > 0 then
      some { loan_id := loan.id,
             amount := if loan.outstanding_balance > amount then amount
                       else loan.outstanding_balance,
             transaction_type := "principal",
             notes := "Payment received from " ++ customer.name }
    else none)

/-- Function `handlePaymentSubmit` of the daywise manager: `none` means no insert was
sent (invalid amount, no loans, or no eligible loans); `some ts` means the
rows `ts` were inserted. -/
def handlePaymentSubmit (customer : Customer) (amount : ℚ) :
    Option (List NewTransaction) :=
  if amount ≤ 0 then none
  else if customer.loans.isEmpty then none
  else
    let transactions := paymentTransactions customer amount
    if transactions.isEmpty then none else some transactions

end DaywiseCustomerManager

namespace CustomerStatement

/-- The joined `loan:loans(loan_number, description)` sub-row on a
transaction fetched by `CustomerStatement`. -/
structure LoanInfo where
  loan_number : String
  description : Option String
deriving DecidableEq

/-- A transaction row as fetched by `CustomerStatement`, with the joined
loan info. -/
structure STransaction where
  id : String
  loan_id : String
  amount : ℚ
  payment_date : JSDate
  transaction_type : String
  notes : Option String
  loan : LoanInfo
deriving DecidableEq

/-- The type discriminator of a statement entry. -/
inductive EntryType
  | loan_disbursement
  | payment_received
  | interest_accrued
deriving DecidableEq

/-- A `StatementEntry` of `CustomerStatement.tsx`; `date` is the entry
date's timestamp. -/
structure StatementEntry where
  date : ℤ
  description : String
  reference : String
  debit : ℚ
  credit : ℚ
  balance : ℚ
  type : EntryType
deriving DecidableEq

/-- The date-range test applied to each candidate entry:
`(!startDate || d >= startDate) && (!endDate || d <= endDate)`. -/
def inRange (startDate endDate : Option ℤ) (d : ℤ) : Bool :=
  (match startDate with
   | Option.none => true
   | Option.some s => decide (s ≤ d)) &&
  (match endDate with
   | Option.none => true
   | Option.some e => decide (d ≤ e))

/-- The running-balance pass of `generateStatement`: walk the sorted entries
with a mutable `runningBalance`, stamping each entry's balance. An
`interest_accrued` entry (never constructed) is pushed unchanged. -/
def applyBalances (runningBalance : ℚ) : List StatementEntry → List StatementEntry
  | [] => []
  | e :: rest =>
    match e.type with
    | EntryType.loan_disbursement =>
        { e with balance := runningBalance + e.debit } ::
          applyBalances (runningBalance + e.debit) rest
    | EntryType.payment_received =>
        { e with balance := runningBalance - e.credit } ::
          applyBalances (runningBalance - e.credit) rest
    | EntryType.interest_accrued => e :: applyBalances runningBalance rest

/-- The disbursement entry built for a loan in range. -/
def loanEntry (l : Loan) : StatementEntry :=
  { date := l.loan_date.time,
    description := "Loan - " ++ (match l.description with
                                 | Option.some s => s
                                 | Option.none => "null"),
    reference := l.loan_number,
    debit := l.principal_amount, credit := 0, balance := 0,
    type := EntryType.loan_disbursement }

/-- The payment entry built for a transaction in range. -/
def paymentEntry (t : STransaction) : StatementEntry :=
  { date := t.payment_date.time,
    description := "Payment Received - " ++ t.loan.description.getD "Loan" ++
                   " (" ++ t.loan.loan_number ++ ")",
    reference := t.id,
    debit := 0, credit := t.amount, balance := 0,
    type := EntryType.payment_received }

/-- Function `generateStatement` of `CustomerStatement.tsx`: collect in-range loan
disbursements and payments, sort ascending by date (JavaScript's stable
comparator sort, modelled by `mergeSort`), then stamp running balances. -/
def generateStatement (loans : List Loan) (transactions : List STransaction)
    (startDate endDate : Option ℤ) : List StatementEntry :=
  let loanEntries :=
    (loans.filter (fun l => inRange startDate endDate l.loan_date.time)).map loanEntry
  let paymentEntries :=
    (transactions.filter
      (fun t => inRange startDate endDate t.payment_date.time)).map paymentEntry
  let allEntries :=
    (loanEntries ++ paymentEntries).mergeSort (fun a b => decide (a.date ≤ b.date))
  applyBalances 0 allEntries

/-- Function `calculateLoanBalance` of `CustomerStatement.tsx`. -/
def calculateLoanBalance (loans : List Loan) (transactions : List STransaction)
    (loanId : String) : ℚ :=
  let loanTransactions := transactions.filter (fun t => t.loan_id == loanId)
  let totalPaid := loanTransactions.foldl (fun sum t => sum + t.amount) 0
  match loans.find? (fun l => l.id == loanId) with
  | some loan => loan.principal_amount - totalPaid
  | none => 0

/-- Function `calculateInterest` of `CustomerStatement.tsx` (same daily/monthly
formulas as `LoansList`, with the rate guard written `!loan.interest_rate`). -/
def calculateInterest (loan : Loan) (balance : ℚ) (currentDate : JSDate) : ℚ :=
  if loan.interest_rate == 0 || loan.interest_type == "none" then 0 else
  let rate := loan.interest_rate / 100
  if loan.interest_type == "daily" then
    let timeDiff : ℤ := currentDate.time - loan.loan_date.time
    let daysDiff : ℤ := Int.ceil ((timeDiff : ℚ) / (1000 * 3600 * 24))
    balance * rate * ((daysDiff : ℚ) / 365)
  else if loan.interest_type == "monthly" then
    let months : ℤ := (currentDate.year - loan.loan_date.year) * 12 +
                      (currentDate.month - loan.loan_date.month)
    let daysInMonth : ℚ := ((currentDate.day - loan.loan_date.day : ℤ) : ℚ) / 30
    let totalMonths : ℚ := (months : ℚ) + daysInMonth
    balance * rate * totalMonths
  else 0

/-- Function `calculateTotalOutstanding` of `CustomerStatement.tsx`. -/
def calculateTotalOutstanding (loans : List Loan) (transactions : List STransaction)
    (currentDate : JSDate) : ℚ :=
  loans.foldl (fun sum loan =>
    let balance := calculateLoanBalance loans transactions loan.id
    let interest := calculateInterest loan balance currentDate
    sum + balance + interest) 0

end CustomerStatement

namespace AddLoanDialog

/-- The TypeScript union type of the dialog's `interestType` form field. -/
inductive InterestType
  | simple
  | compound
  | none
deriving DecidableEq

/-- The string stored for each form value. -/
def InterestType.toKey : InterestType → String
  | InterestType.simple => "simple"
  | InterestType.compound => "compound"
  | InterestType.none => "none"

/-- The dialog's form state (numeric fields already parsed). -/
structure FormData where
  customerId : String
  principalAmount : ℚ
  description : String
  interestRate : ℚ
  interestType : InterestType
  loanDate : JSDate
  dueDate : Option JSDate
deriving DecidableEq

/-- The row `handleSubmit` inserts into `loans`. -/
structure LoanInsert where
  user_id : String
  customer_id : String
  principal_amount : ℚ
  description : String
  interest_rate : ℚ
  interest_type : String
  loan_date : JSDate
  due_date : Option JSDate
deriving DecidableEq

/-- The insert payload built by `handleSubmit` of `AddLoanDialog`. -/
def insertPayload (userId : String) (formData : FormData) : LoanInsert :=
  { user_id := userId,
    customer_id := formData.customerId,
    principal_amount := formData.principalAmount,
    description := formData.description,
    interest_rate := if formData.interestType = InterestType.none then 0
                     else formData.interestRate,
    interest_type := formData.interestType.toKey,
    loan_date := formData.loanDate,
    due_date := formData.dueDate }

/-- The loan row such an insert creates, as later fetched by `LoansList`. -/
def loanFromInsert (loanId loanNumber : String) (p : LoanInsert) : Loan :=
  { id := loanId, loan_number := loanNumber,
    principal_amount := p.principal_amount,
    interest_rate := p.interest_rate, interest_type := p.interest_type,
    loan_date := p.loan_date, due_date := p.due_date,
    description := some p.description, is_active := true }

end AddLoanDialog

namespace LoansListCopy

/-- Function `calculateLoanBalance` of the second copy of the `LoansList`
component the repository carries in an unnamed source file; textually
identical to `LoansList.calculateLoanBalance`. -/
def calculateLoanBalance (loans : List Loan) (transactions : List LoanTransaction)
    (loanId : String) : ℚ :=
  let loanTransactions := transactions.filter (fun t => t.loan_id == loanId)
  let totalPaid := loanTransactions.foldl (fun sum t => sum + t.amount) 0
  match loans.find? (fun l => l.id == loanId) with
  | some loan => loan.principal_amount - totalPaid
  | none => 0

end LoansListCopy

namespace CustomerStatementCopy

/-- Function `calculateLoanBalance` of the second copy of the
`CustomerStatement` component the repository carries in an unnamed source
file; textually identical to `CustomerStatement.calculateLoanBalance`. -/
def calculateLoanBalance (loans : List Loan)
    (transactions : List CustomerStatement.STransaction) (loanId : String) : ℚ :=
  let loanTransactions := transactions.filter (fun t => t.loan_id == loanId)
  let totalPaid := loanTransactions.foldl (fun sum t => sum + t.amount) 0
  match loans.find? (fun l => l.id == loanId) with
  | some loan => loan.principal_amount - totalPaid
  | none => 0

end CustomerStatementCopy

namespace DaywisePayment

/-- The joined `loan:loans!inner(customer_id, user_id)` sub-row on a
transaction fetched by the `DaywisePayment` view of `SettingsDialog.tsx`. -/
structure LoanRef where
  customer_id : String
  user_id : String
deriving DecidableEq

/-- A transaction row as fetched by the `DaywisePayment` view. -/
structure DPTransaction where
  id : String
  loan_id : String
  amount : ℚ
  payment_date : JSDate
  transaction_type : String
  notes : Option String
  loan : LoanRef
deriving DecidableEq

/-- The per-customer loan slice selected by the `DaywisePayment` view:
`loans:loans(id, principal_amount, is_active, interest_rate, interest_type,
loan_date)`. -/
structure CustomerLoan where
  id : String
  principal_amount : ℚ
  is_active : Bool
  interest_rate : ℚ
  interest_type : String
  loan_date : JSDate
deriving DecidableEq

/-- A customer row with the nested loans, as the `DaywisePayment` view
fetches it. -/
structure Customer where
  id : String
  name : String
  phone : Option String
  address : Option String
  payment_day : Option String
  loans : List CustomerLoan
deriving DecidableEq

/-- Function `calculateLoanBalance` of the `DaywisePayment` view inside
`SettingsDialog.tsx`: transactions are filtered by the joined customer id
and the loan id, and the loan row is reached through the customer's nested
loans. -/
def calculateLoanBalance (customers : List Customer)
    (allTransactions : List DPTransaction) (customerId loanId : String) : ℚ :=
  let customerLoans := allTransactions.filter
    (fun t => t.loan.customer_id == customerId && t.loan_id == loanId)
  let totalPaid := customerLoans.foldl (fun sum t => sum + t.amount) 0
  match (customers.find? (fun c => c.id == customerId)).bind
      (fun c => c.loans.find? (fun l => l.id == loanId)) with
  | some loan => loan.principal_amount - totalPaid
  | none => 0

end DaywisePayment

namespace CustomerSummary

/-- A loan row as fetched by the `CustomerSummary` component. -/
structure SummaryLoan where
  id : String
  customer_id : String
  principal_amount : ℚ
  loan_date : JSDate
  is_active : Bool
deriving DecidableEq

/-- A transaction row as fetched by the `CustomerSummary` component, with
the joined `loan:loans!inner(customer_id)`. -/
structure SummaryTransaction where
  id : String
  loan_id : String
  amount : ℚ
  payment_date : JSDate
  customer_id : String
deriving DecidableEq

/-- The per-loan term the `CustomerSummary` component adds into a customer's
`outstanding_balance` during the loans pass:
`Math.max(0, loan.principal_amount - totalPaid)`. -/
def loanOutstanding (transactions : List SummaryTransaction)
    (loan : SummaryLoan) : ℚ :=
  let loanTransactions := transactions.filter (fun t => t.loan_id == loan.id)
  let totalPaid := loanTransactions.foldl (fun sum t => sum + t.amount) 0
  max 0 (loan.principal_amount - totalPaid)

/-- A customer's `outstanding_balance` after the loans pass: starting from
zero, the clamped per-loan terms are accumulated over the customer's loans. -/
def outstandingBalance (transactions : List SummaryTransaction)
    (loans : List SummaryLoan) : ℚ :=
  loans.foldl (fun acc loan => acc + loanOutstanding transactions loan) 0

end CustomerSummary

namespace Sample

/-- Sample loan date: 2024-01-10 (JavaScript month index 0). -/
def loanDate : JSDate := ⟨0, 2024, 0, 10⟩

/-- Sample evaluation date exactly 50 days after `loanDate`. -/
def evalDate : JSDate := ⟨4320000000, 2024, 1, 29⟩

/-- A daily-interest loan at 10 percent over 1000. -/
def dailyLoan : Loan :=
  { id := "L1", loan_number := "LN-1", principal_amount := 1000,
    interest_rate := 10, interest_type := "daily", loan_date := loanDate,
    due_date := Option.none, description := Option.none, is_active := true }

/-- A monthly-interest loan taken on the 20th of January 2024. -/
def monthlyLoan : Loan :=
  { id := "L2", loan_number := "LN-2", principal_amount := 1000,
    interest_rate := 10, interest_type := "monthly", loan_date := ⟨864000000, 2024, 0, 20⟩,
    due_date := Option.none, description := Option.none, is_active := true }

/-- Evaluation date 2024-02-05: its day of month 5 precedes the loan's 20. -/
def monthlyEvalDate : JSDate := ⟨2246400000, 2024, 1, 5⟩

/-- A simple-interest loan (12 percent, one year elapsed at `yearLater`). -/
def simpleLoan : Loan :=
  { id := "L3", loan_number := "LN-3", principal_amount := 1000,
    interest_rate := 12, interest_type := "simple", loan_date := loanDate,
    due_date := Option.none, description := Option.none, is_active := true }

/-- Evaluation date exactly twelve calendar months after `loanDate`. -/
def yearLater : JSDate := ⟨31622400000, 2025, 0, 10⟩

/-- One recorded payment of 150 against loan `L1`. -/
def paymentTxn : LoanTransaction :=
  { id := "T1", loan_id := "L1", amount := 150, payment_date := evalDate,
    transaction_type := "principal", notes := Option.none }

/-- A daywise-manager loan row that is overpaid: principal 100, payments 150. -/
def overpaidRow : DaywiseCustomerManager.LoanRow :=
  { id := "L4", customer_id := "C1", principal_amount := 100,
    is_active := true, loan_transactions := [⟨150⟩] }

/-- A daywise-manager customer with two active loans of outstanding balance
80 and 70. -/
def twoLoanCustomer : DaywiseCustomerManager.Customer :=
  { id := "C1", name := "Asha", phone := Option.none, address := Option.none,
    payment_day := Option.none,
    loans :=
      [{ id := "L5", customer_id := "C1", principal_amount := 80,
         is_active := true, loan_transactions := [], outstanding_balance := 80 },
       { id := "L6", customer_id := "C1", principal_amount := 70,
         is_active := true, loan_transactions := [], outstanding_balance := 70 }] }

/-- A customers-list customer with one active loan. -/
def activeLoanCustomer : CustomersList.Customer :=
  { id := "C2", name := "Bimal",
    loans := [{ id := "L7", loan_number := "LN-7", principal_amount := 500,
                interest_rate := 0, interest_type := "none", loan_date := loanDate,
                due_date := Option.none, description := Option.none,
                is_active := true }] }

/-- A loan of the `DaywisePayment` view's sample customer. -/
def dpLoan : DaywisePayment.CustomerLoan :=
  { id := "L8", principal_amount := 400, is_active := true,
    interest_rate := 0, interest_type := "none", loan_date := loanDate }

/-- A `DaywisePayment` customer holding `dpLoan`. -/
def dpCustomer : DaywisePayment.Customer :=
  { id := "C3", name := "Chitra", phone := Option.none, address := Option.none,
    payment_day := Option.none, loans := [dpLoan] }

/-- A `DaywisePayment` transaction of 100 against `dpLoan`. -/
def dpTxn : DaywisePayment.DPTransaction :=
  { id := "T3", loan_id := "L8", amount := 100, payment_date := evalDate,
    transaction_type := "principal", notes := Option.none,
    loan := { customer_id := "C3", user_id := "U1" } }

/-- A `CustomerSummary` loan of principal 100. -/
def summaryLoan : CustomerSummary.SummaryLoan :=
  { id := "L9", customer_id := "C4", principal_amount := 100,
    loan_date := loanDate, is_active := true }

/-- A `CustomerSummary` transaction of 150 against `summaryLoan`. -/
def summaryTxn : CustomerSummary.SummaryTransaction :=
  { id := "T4", loan_id := "L9", amount := 150, payment_date := evalDate,
    customer_id := "C4" }

/-- A statement transaction: 150 received against loan `L1` on `evalDate`. -/
def statementTxn : CustomerStatement.STransaction :=
  { id := "T2", loan_id := "L1", amount := 150, payment_date := evalDate,
    transaction_type := "principal", notes := Option.none,
    loan := { loan_number := "LN-1", description := Option.none } }

end Sample

section Helpers

/-- Folding `(· + f ·)` from `a` sums the mapped list. -/
theorem foldl_add_map_sum {α : Type} (f : α → ℚ) (l : List α) (a : ℚ) :
    l.foldl (fun sum t => sum + f t) a = a + (l.map f).sum := by
  induction l generalizing a with
  | nil => simp
  | cons x xs ih => simp [ih, add_assoc]

/-- Folding `(· + f · + g ·)` from `a` sums the mapped list of `f + g`. -/
theorem foldl_add_add_map_sum {α : Type} (f g : α → ℚ) (l : List α) (a : ℚ) :
    l.foldl (fun sum t => sum + f t + g t) a = a + (l.map (fun t => f t + g t)).sum := by
  induction l generalizing a with
  | nil => simp
  | cons x xs ih => simp [ih]; ring

end Helpers

/-- Claim C1 as stated is false: the claim quantifies over every component
that computes a balance, but the daywise payment manager clamps the balance
at zero. Concretely, for a loan of principal 100 with recorded payments
summing to 150, the manager computes outstanding balance 0, not 100 − 150. -/
theorem daywise_balance_clamps_counterexample :
    (DaywiseCustomerManager.loanWithBalance Sample.overpaidRow).outstanding_balance ≠
      Sample.overpaidRow.principal_amount -
        (Sample.overpaidRow.loan_transactions.map (fun t => t.amount)).sum := by
  norm_num [DaywiseCustomerManager.loanWithBalance, Sample.overpaidRow, max_def]

/-- Claim C1 (amended): every component that computes a balance computes
principal minus the sum of the amounts of the transactions considered for the
loan, with no interest term; the computation is unclamped in the loans list
and its duplicate copy, the customer statement and its duplicate copy, the
customer details view, the customers list, and the settings dialog's daywise
payment view, while the daywise payment manager and the customer summary
clamp the result at zero, computing `max 0 (principal − sum)`. -/
theorem loanBalance_components_spec
    (loans : List Loan) (transactions : List LoanTransaction)
    (stxns : List CustomerStatement.STransaction)
    (loan : Loan) (row : DaywiseCustomerManager.LoanRow)
    (dcustomers : List DaywisePayment.Customer)
    (dtxns : List DaywisePayment.DPTransaction)
    (dcustomer : DaywisePayment.Customer) (dloan : DaywisePayment.CustomerLoan)
    (stransactions : List CustomerSummary.SummaryTransaction)
    (sloan : CustomerSummary.SummaryLoan)
    (h1 : loans.find? (fun l => l.id == loan.id) = some loan)
    (h2 : dcustomers.find? (fun c => c.id == dcustomer.id) = some dcustomer)
    (h3 : dcustomer.loans.find? (fun l => l.id == dloan.id) = some dloan) :
    LoansList.calculateLoanBalance loans transactions loan.id
      = loan.principal_amount -
        ((transactions.filter (fun t => t.loan_id == loan.id)).map
          (fun t => t.amount)).sum
  ∧ LoansListCopy.calculateLoanBalance loans transactions loan.id
      = loan.principal_amount -
        ((transactions.filter (fun t => t.loan_id == loan.id)).map
          (fun t => t.amount)).sum
  ∧ CustomerStatement.calculateLoanBalance loans stxns loan.id
      = loan.principal_amount -
        ((stxns.filter (fun t => t.loan_id == loan.id)).map
          (fun t => t.amount)).sum
  ∧ CustomerStatementCopy.calculateLoanBalance loans stxns loan.id
      = loan.principal_amount -
        ((stxns.filter (fun t => t.loan_id == loan.id)).map
          (fun t => t.amount)).sum
  ∧ CustomerDetails.calculateLoanBalance transactions loan
      = loan.principal_amount -
        ((transactions.filter (fun t => t.loan_id == loan.id)).map
          (fun t => t.amount)).sum
  ∧ CustomersList.calculateLoanBalance transactions loan
      = loan.principal_amount -
        ((transactions.filter (fun t => t.loan_id == loan.id)).map
          (fun t => t.amount)).sum
  ∧ DaywisePayment.calculateLoanBalance dcustomers dtxns dcustomer.id dloan.id
      = dloan.principal_amount -
        ((dtxns.filter (fun t =>
            t.loan.customer_id == dcustomer.id && t.loan_id == dloan.id)).map
          (fun t => t.amount)).sum
  ∧ (DaywiseCustomerManager.loanWithBalance row).outstanding_balance
      = max 0 (row.principal_amount -
          (row.loan_transactions.map (fun t => t.amount)).sum)
  ∧ CustomerSummary.loanOutstanding stransactions sloan
      = max 0 (sloan.principal_amount -
          ((stransactions.filter (fun t => t.loan_id == sloan.id)).map
            (fun t => t.amount)).sum) := by
  refine ⟨?_, ?_, ?_, ?_, ?_, ?_, ?_, ?_, ?_⟩
  · simp [LoansList.calculateLoanBalance, h1, foldl_add_map_sum]
  · simp [LoansListCopy.calculateLoanBalance, h1, foldl_add_map_sum]
  · simp [CustomerStatement.calculateLoanBalance, h1, foldl_add_map_sum]
  · simp [CustomerStatementCopy.calculateLoanBalance, h1, foldl_add_map_sum]
  · simp [CustomerDetails.calculateLoanBalance, foldl_add_map_sum]
  · simp [CustomersList.calculateLoanBalance, foldl_add_map_sum]
  · simp [DaywisePayment.calculateLoanBalance, h2, h3, foldl_add_map_sum]
  · simp [DaywiseCustomerManager.loanWithBalance, foldl_add_map_sum]
  · simp [CustomerSummary.loanOutstanding, foldl_add_map_sum]

/-- Witness for `loanBalance_components_spec` at a concrete loan, transaction
lists, daywise-payment customer and daywise row. -/
theorem loanBalance_components_spec_witness :
    ([Sample.dailyLoan].find? (fun l => l.id == Sample.dailyLoan.id)
        = some Sample.dailyLoan)
  ∧ ([Sample.dpCustomer].find? (fun c => c.id == Sample.dpCustomer.id)
        = some Sample.dpCustomer)
  ∧ (Sample.dpCustomer.loans.find? (fun l => l.id == Sample.dpLoan.id)
        = some Sample.dpLoan)
  ∧ (LoansList.calculateLoanBalance [Sample.dailyLoan] [Sample.paymentTxn]
        Sample.dailyLoan.id
      = Sample.dailyLoan.principal_amount -
        (([Sample.paymentTxn].filter
            (fun t => t.loan_id == Sample.dailyLoan.id)).map
          (fun t => t.amount)).sum)
  ∧ (DaywisePayment.calculateLoanBalance [Sample.dpCustomer] [Sample.dpTxn]
        Sample.dpCustomer.id Sample.dpLoan.id
      = Sample.dpLoan.principal_amount -
        (([Sample.dpTxn].filter (fun t =>
            t.loan.customer_id == Sample.dpCustomer.id &&
              t.loan_id == Sample.dpLoan.id)).map
          (fun t => t.amount)).sum) := by
  refine ⟨by decide, by decide, by decide, ?_, ?_⟩
  · exact (loanBalance_components_spec [Sample.dailyLoan] [Sample.paymentTxn] []
      Sample.dailyLoan Sample.overpaidRow [Sample.dpCustomer] [Sample.dpTxn]
      Sample.dpCustomer Sample.dpLoan [Sample.summaryTxn] Sample.summaryLoan
      (by decide) (by decide) (by decide)).1
  · exact (loanBalance_components_spec [Sample.dailyLoan] [Sample.paymentTxn] []
      Sample.dailyLoan Sample.overpaidRow [Sample.dpCustomer] [Sample.dpTxn]
      Sample.dpCustomer Sample.dpLoan [Sample.summaryTxn] Sample.summaryLoan
      (by decide) (by decide) (by decide)).2.2.2.2.2.2.1

/-- Claim C2: the displayed outstanding amount is the balance (principal
minus the sum of the loan's recorded transaction amounts) plus the accrued
interest on that balance: `calculateOutstandingAmount` in `LoansList`
decomposes exactly this way, and `calculateTotalOutstanding` in
`CustomerStatement` sums balance-plus-interest over the loans. -/
theorem outstandingAmount_spec
    (loans : List Loan) (transactions : List LoanTransaction)
    (stxns : List CustomerStatement.STransaction) (d : JSDate) (loan : Loan)
    (h1 : loans.find? (fun l => l.id == loan.id) = some loan) :
    (LoansList.calculateOutstandingAmount loans transactions d loan
      = LoansList.calculateLoanBalance loans transactions loan.id
        + LoansList.calculateInterest loan
            (LoansList.calculateLoanBalance loans transactions loan.id) d)
  ∧ (LoansList.calculateOutstandingAmount loans transactions d loan
      = (loan.principal_amount -
          ((transactions.filter (fun t => t.loan_id == loan.id)).map
            (fun t => t.amount)).sum)
        + LoansList.calculateInterest loan
            (loan.principal_amount -
              ((transactions.filter (fun t => t.loan_id == loan.id)).map
                (fun t => t.amount)).sum) d)
  ∧ (CustomerStatement.calculateTotalOutstanding loans stxns d
      = (loans.map (fun l =>
          CustomerStatement.calculateLoanBalance loans stxns l.id
            + CustomerStatement.calculateInterest l
                (CustomerStatement.calculateLoanBalance loans stxns l.id) d)).sum) := by
  have hbal : LoansList.calculateLoanBalance loans transactions loan.id
      = loan.principal_amount -
        ((transactions.filter (fun t => t.loan_id == loan.id)).map
          (fun t => t.amount)).sum := by
    simp [LoansList.calculateLoanBalance, h1, foldl_add_map_sum]
  refine ⟨rfl, ?_, ?_⟩
  · rw [LoansList.calculateOutstandingAmount, hbal]
  · simp [CustomerStatement.calculateTotalOutstanding, foldl_add_add_map_sum]

/-- Witness for `outstandingAmount_spec` at a concrete loan and transaction
list. -/
theorem outstandingAmount_spec_witness :
    ([Sample.dailyLoan].find? (fun l => l.id == Sample.dailyLoan.id)
        = some Sample.dailyLoan)
  ∧ (LoansList.calculateOutstandingAmount [Sample.dailyLoan] [Sample.paymentTxn]
        Sample.evalDate Sample.dailyLoan
      = (Sample.dailyLoan.principal_amount -
          (([Sample.paymentTxn].filter
              (fun t => t.loan_id == Sample.dailyLoan.id)).map
            (fun t => t.amount)).sum)
        + LoansList.calculateInterest Sample.dailyLoan
            (Sample.dailyLoan.principal_amount -
              (([Sample.paymentTxn].filter
                  (fun t => t.loan_id == Sample.dailyLoan.id)).map
                (fun t => t.amount)).sum) Sample.evalDate) := by
  refine ⟨by decide, ?_⟩
  exact (outstandingAmount_spec [Sample.dailyLoan] [Sample.paymentTxn] []
    Sample.evalDate Sample.dailyLoan (by decide)).2.1

/-- Claim C3: for a loan of interest type `daily` with nonzero rate `r`,
both list components compute interest as
`balance × (r/100) × (days/365)` where `days` is the ceiling of the elapsed
milliseconds divided by one day. -/
theorem daily_interest_spec (loan : Loan) (balance : ℚ) (d : JSDate)
    (ht : loan.interest_type = "daily") (hr : loan.interest_rate ≠ 0) :
    (LoansList.calculateInterest loan balance d
      = balance * (loan.interest_rate / 100) *
        ((Int.ceil (((d.time - loan.loan_date.time : ℤ) : ℚ) /
            (1000 * 3600 * 24)) : ℚ) / 365))
  ∧ (CustomerStatement.calculateInterest loan balance d
      = balance * (loan.interest_rate / 100) *
        ((Int.ceil (((d.time - loan.loan_date.time : ℤ) : ℚ) /
            (1000 * 3600 * 24)) : ℚ) / 365)) := by
  constructor
  · simp [LoansList.calculateInterest, ht, hr]
  · simp [CustomerStatement.calculateInterest, ht, hr]

/-- Witness for `daily_interest_spec`: 50 elapsed days on a 10 percent daily
loan with balance 850. -/
theorem daily_interest_spec_witness :
    (Sample.dailyLoan.interest_type = "daily" ∧ Sample.dailyLoan.interest_rate ≠ 0)
  ∧ (LoansList.calculateInterest Sample.dailyLoan 850 Sample.evalDate
      = 850 * (Sample.dailyLoan.interest_rate / 100) *
        ((Int.ceil (((Sample.evalDate.time -
            Sample.dailyLoan.loan_date.time : ℤ) : ℚ) /
              (1000 * 3600 * 24)) : ℚ) / 365)) := by
  refine ⟨⟨rfl, by norm_num [Sample.dailyLoan]⟩, ?_⟩
  exact (daily_interest_spec Sample.dailyLoan 850 Sample.evalDate rfl
    (by norm_num [Sample.dailyLoan])).1

/-- Claim C4: for a loan of interest type `monthly` with nonzero rate `r`,
both list components compute `balance × (r/100) × totalMonths` with
`totalMonths = wholeMonthDiff + (dayOfMonth₁ − dayOfMonth₀)/30`; the final
conjunct exhibits the fractional day term negative (evaluation on the 5th,
loan taken on the 20th) while the formula still holds. -/
theorem monthly_interest_spec (loan : Loan) (balance : ℚ) (d : JSDate)
    (ht : loan.interest_type = "monthly") (hr : loan.interest_rate ≠ 0) :
    (LoansList.calculateInterest loan balance d
      = balance * (loan.interest_rate / 100) *
        ((((d.year - loan.loan_date.year) * 12 +
            (d.month - loan.loan_date.month) : ℤ) : ℚ)
          + ((d.day - loan.loan_date.day : ℤ) : ℚ) / 30))
  ∧ (CustomerStatement.calculateInterest loan balance d
      = balance * (loan.interest_rate / 100) *
        ((((d.year - loan.loan_date.year) * 12 +
            (d.month - loan.loan_date.month) : ℤ) : ℚ)
          + ((d.day - loan.loan_date.day : ℤ) : ℚ) / 30))
  ∧ (((Sample.monthlyEvalDate.day - Sample.monthlyLoan.loan_date.day : ℤ) : ℚ) / 30 < 0
      ∧ LoansList.calculateInterest Sample.monthlyLoan 1000 Sample.monthlyEvalDate
          = 1000 * (10 / 100) * (1 + (-15 : ℚ) / 30)) := by
  refine ⟨?_, ?_, ?_, ?_⟩
  · simp [LoansList.calculateInterest, ht, hr]
  · simp [CustomerStatement.calculateInterest, ht, hr]
  · norm_num [Sample.monthlyEvalDate, Sample.monthlyLoan]
  · norm_num [LoansList.calculateInterest, Sample.monthlyEvalDate,
      Sample.monthlyLoan]
    decide

/-- Witness for `monthly_interest_spec` at a concrete monthly loan. -/
theorem monthly_interest_spec_witness :
    (Sample.monthlyLoan.interest_type = "monthly"
      ∧ Sample.monthlyLoan.interest_rate ≠ 0)
  ∧ (LoansList.calculateInterest Sample.monthlyLoan 1000 Sample.monthlyEvalDate
      = 1000 * (Sample.monthlyLoan.interest_rate / 100) *
        ((((Sample.monthlyEvalDate.year - Sample.monthlyLoan.loan_date.year) * 12 +
            (Sample.monthlyEvalDate.month - Sample.monthlyLoan.loan_date.month) : ℤ) : ℚ)
          + ((Sample.monthlyEvalDate.day -
              Sample.monthlyLoan.loan_date.day : ℤ) : ℚ) / 30)) := by
  refine ⟨⟨rfl, by norm_num [Sample.monthlyLoan]⟩, ?_⟩
  exact (monthly_interest_spec Sample.monthlyLoan 1000 Sample.monthlyEvalDate rfl
    (by norm_num [Sample.monthlyLoan])).1

/-- Claim C5: the loan-creation dialog only ever stores the interest types
`simple`, `compound` or `none`, and the loans list's `calculateInterest`
returns nonzero interest only for `daily` or `monthly`; hence every loan
created through the dialog gets zero accrued interest in the loans list,
whatever the rate, dates and balance. -/
theorem addLoanDialog_interest_zero
    (userId loanId loanNumber : String) (formData : AddLoanDialog.FormData)
    (balance : ℚ) (d : JSDate) :
    LoansList.calculateInterest
      (AddLoanDialog.loanFromInsert loanId loanNumber
        (AddLoanDialog.insertPayload userId formData)) balance d = 0 := by
  cases h : formData.interestType <;>
    simp [LoansList.calculateInterest, AddLoanDialog.loanFromInsert,
      AddLoanDialog.insertPayload, AddLoanDialog.InterestType.toKey, h]

/-- Claim C6: the duplicated per-component interest computations disagree:
for a `simple`-type loan at 12 percent held one year, the `CustomerDetails`
component computes 120 while `LoansList` computes 0 for the very same loan. -/
theorem calculateInterest_implementations_differ :
    LoansList.calculateInterest Sample.simpleLoan
        Sample.simpleLoan.principal_amount Sample.yearLater
      ≠ CustomerDetails.calculateInterest Sample.simpleLoan Sample.yearLater := by
  norm_num [LoansList.calculateInterest, CustomerDetails.calculateInterest,
    Sample.simpleLoan, Sample.yearLater, Sample.loanDate]
  decide

/-- Claim C7: each remote-call failure in `LoansList` (fetching loans,
fetching transactions, recording a payment, deleting a loan) is caught in its
own handler: exactly one destructive toast is issued, nothing is retried
(each handler consumes its remote result once), and the locally held loans
and transactions lists are unchanged by the failed operation. -/
theorem remote_failure_handling (e : String) (s : LoansList.ComponentState)
    (loansResult : Except String (List Loan))
    (txResult : Except String (List LoanTransaction)) :
    ((LoansList.fetchLoans (Except.error e) s).1.loans = s.loans
      ∧ (LoansList.fetchLoans (Except.error e) s).1.transactions = s.transactions
      ∧ (LoansList.fetchLoans (Except.error e) s).2
          = [{ title := "Error", description := "Failed to fetch loans",
               variant := some "destructive" }])
  ∧ ((LoansList.fetchTransactions (Except.error e) s).1 = s
      ∧ (LoansList.fetchTransactions (Except.error e) s).2
          = [{ title := "Error", description := "Failed to fetch transactions",
               variant := some "destructive" }])
  ∧ ((LoansList.handlePayment (Except.error e) loansResult txResult s).1 = s
      ∧ (LoansList.handlePayment (Except.error e) loansResult txResult s).2
          = [{ title := "Error", description := "Failed to record payment",
               variant := some "destructive" }])
  ∧ ((LoansList.handleQuickDelete (Except.error e) s).1 = s
      ∧ (LoansList.handleQuickDelete (Except.error e) s).2
          = [{ title := "Error",
               description := if e == "" then "Failed to delete loan." else e,
               variant := some "destructive" }]) :=
  ⟨⟨rfl, rfl, rfl⟩, ⟨rfl, rfl⟩, ⟨rfl, rfl⟩, ⟨rfl, rfl⟩⟩

/-- On `ℚ`, the expression `if b > a then a else b` equals `min a b`. -/
theorem ite_gt_eq_min (a b : ℚ) : (if b > a then a else b) = min a b := by
  rcases le_or_lt b a with h | h
  · simp [not_lt.mpr h, min_eq_right h]
  · simp [h, min_eq_left h.le]

/-- The filterMap loop of `handlePaymentSubmit` is a filter-then-map: keep
the active loans with positive outstanding balance and pay `min a balance`. -/
theorem paymentTransactions_core (name : String) (a : ℚ)
    (l : List DaywiseCustomerManager.DLoan) :
    (l.filterMap (fun loan =>
      if loan.is_active ∧ loan.outstanding_balance ≠ 0 ∧
          loan.outstanding_balance > 0 then
        some { loan_id := loan.id,
               amount := if loan.outstanding_balance > a then a
                         else loan.outstanding_balance,
               transaction_type := "principal",
               notes := "Payment received from " ++ name }
      else (none : Option DaywiseCustomerManager.NewTransaction))
    = (l.filter (fun loan =>
        loan.is_active && decide (0 < loan.outstanding_balance))).map
        (fun loan =>
          { loan_id := loan.id, amount := min a loan.outstanding_balance,
            transaction_type := "principal",
            notes := "Payment received from " ++ name })) := by
  induction l with
  | nil => rfl
  | cons x xs ih =>
    by_cases h0 : (0 : ℚ) < x.outstanding_balance
    · cases hx : x.is_active
      · simp [hx, ih]
      · have hne : x.outstanding_balance ≠ 0 := ne_of_gt h0
        have ih' := ih
        simp only [ite_gt_eq_min] at ih' ⊢
        simp [hx, h0, hne, ih']
    · cases hx : x.is_active <;> simp [hx, h0, ih]

/-- Claim C8: submitting a payment of amount `a` in the daywise manager
builds one `principal` transaction per active loan with positive outstanding
balance, each of amount `min a balance`; the insert is sent exactly when that
list is nonempty; and for a customer with two such loans (balances 80 and 70)
a payment of 50 records transactions summing to 100 > 50. -/
theorem handlePaymentSubmit_spec :
    (∀ (c : DaywiseCustomerManager.Customer) (a : ℚ),
       DaywiseCustomerManager.paymentTransactions c a
         = (c.loans.filter (fun l =>
              l.is_active && decide (0 < l.outstanding_balance))).map
             (fun l =>
               { loan_id := l.id, amount := min a l.outstanding_balance,
                 transaction_type := "principal",
                 notes := "Payment received from " ++ c.name }))
  ∧ (∀ (c : DaywiseCustomerManager.Customer) (a : ℚ), 0 < a →
       DaywiseCustomerManager.handlePaymentSubmit c a
         = if (DaywiseCustomerManager.paymentTransactions c a).isEmpty then none
           else some (DaywiseCustomerManager.paymentTransactions c a))
  ∧ (2 ≤ (DaywiseCustomerManager.paymentTransactions
            Sample.twoLoanCustomer 50).length
      ∧ 50 < ((DaywiseCustomerManager.paymentTransactions
                Sample.twoLoanCustomer 50).map (fun t => t.amount)).sum
      ∧ DaywiseCustomerManager.handlePaymentSubmit Sample.twoLoanCustomer 50
          = some (DaywiseCustomerManager.paymentTransactions
              Sample.twoLoanCustomer 50)) := by
  have hchar : ∀ (c : DaywiseCustomerManager.Customer) (a : ℚ),
      DaywiseCustomerManager.paymentTransactions c a
        = (c.loans.filter (fun l =>
             l.is_active && decide (0 < l.outstanding_balance))).map
            (fun l =>
              { loan_id := l.id, amount := min a l.outstanding_balance,
                transaction_type := "principal",
                notes := "Payment received from " ++ c.name }) := by
    intro c a
    exact paymentTransactions_core c.name a c.loans
  have hsubmit : ∀ (c : DaywiseCustomerManager.Customer) (a : ℚ), 0 < a →
      DaywiseCustomerManager.handlePaymentSubmit c a
        = if (DaywiseCustomerManager.paymentTransactions c a).isEmpty then none
          else some (DaywiseCustomerManager.paymentTransactions c a) := by
    intro c a ha
    unfold DaywiseCustomerManager.handlePaymentSubmit
    rw [if_neg (not_le.mpr ha)]
    by_cases hl : c.loans.isEmpty
    · have : c.loans = [] := List.isEmpty_iff.mp hl
      simp [hl, DaywiseCustomerManager.paymentTransactions, this]
    · simp [hl]
  refine ⟨hchar, hsubmit, ?_, ?_, ?_⟩
  · rw [hchar]
    norm_num [Sample.twoLoanCustomer]
  · rw [hchar]
    norm_num [Sample.twoLoanCustomer, min_def]
  · rw [hsubmit Sample.twoLoanCustomer 50 (by norm_num), hchar]
    norm_num [Sample.twoLoanCustomer]

/-- Witness for `handlePaymentSubmit_spec`: its insert characterization
applied to the concrete two-loan customer at amount 50. -/
theorem handlePaymentSubmit_spec_witness :
    (0 : ℚ) < 50
  ∧ DaywiseCustomerManager.handlePaymentSubmit Sample.twoLoanCustomer 50
      = if (DaywiseCustomerManager.paymentTransactions
              Sample.twoLoanCustomer 50).isEmpty then none
        else some (DaywiseCustomerManager.paymentTransactions
            Sample.twoLoanCustomer 50) :=
  ⟨by norm_num,
   handlePaymentSubmit_spec.2.1 Sample.twoLoanCustomer 50 (by norm_num)⟩

/-- Claim C10: `deleteCustomer` is guarded: with any active loan it stops at
the first guard; with transaction history it stops at the second; in both
cases no delete is issued, the customer list state is unchanged, and one
destructive toast is raised. A delete request is issued only when the
customer has no active loans and the transaction query came back empty. -/
theorem deleteCustomer_guard_spec
    (customers : List CustomersList.Customer) (id : String)
    (txns : List String) (delRes : Except String Unit) :
    (CustomersList.hasActiveLoans customers id = true →
       CustomersList.deleteCustomer customers id txns delRes
         = (false, customers,
            [{ title := "Cannot delete customer",
               description := "Customer has active loans. Complete all loans before deleting.",
               variant := some "destructive" }]))
  ∧ (CustomersList.hasActiveLoans customers id = false → txns ≠ [] →
       CustomersList.deleteCustomer customers id txns delRes
         = (false, customers,
            [{ title := "Cannot delete customer",
               description := "Customer has transaction history. Cannot delete customer with transactions.",
               variant := some "destructive" }]))
  ∧ ((CustomersList.deleteCustomer customers id txns delRes).1 = true →
       CustomersList.hasActiveLoans customers id = false ∧ txns = []) := by
  refine ⟨?_, ?_, ?_⟩
  · intro h
    simp [CustomersList.deleteCustomer, h]
  · intro h hne
    have : 0 < txns.length := List.length_pos.mpr hne
    simp [CustomersList.deleteCustomer, h, this]
  · intro h
    by_cases ha : CustomersList.hasActiveLoans customers id
    · simp [CustomersList.deleteCustomer, ha] at h
    · by_cases ht : 0 < txns.length
      · simp [CustomersList.deleteCustomer, ha, ht] at h
      · exact ⟨by simpa using ha, by simpa using List.length_eq_zero.mp (by omega)⟩

/-- Witness for `deleteCustomer_guard_spec`: a customer with an active loan
is not deleted. -/
theorem deleteCustomer_guard_spec_witness :
    CustomersList.hasActiveLoans [Sample.activeLoanCustomer] "C2" = true
  ∧ CustomersList.deleteCustomer [Sample.activeLoanCustomer] "C2" []
        (Except.ok ())
      = (false, [Sample.activeLoanCustomer],
         [{ title := "Cannot delete customer",
            description := "Customer has active loans. Complete all loans before deleting.",
            variant := some "destructive" }]) :=
  ⟨by decide,
   (deleteCustomer_guard_spec [Sample.activeLoanCustomer] "C2" []
      (Except.ok ())).1 (by decide)⟩

/-- Sum of a mapped difference is the difference of the mapped sums. -/
theorem map_sub_sum {α : Type} (f g : α → ℚ) (l : List α) :
    (l.map (fun x => f x - g x)).sum = (l.map f).sum - (l.map g).sum := by
  induction l with
  | nil => simp
  | cons x xs ih =>
    simp only [List.map_cons, List.sum_cons, ih]
    ring

/-- Stamping balances preserves each entry's date. -/
theorem applyBalances_map_date (rb : ℚ) (l : List CustomerStatement.StatementEntry) :
    (CustomerStatement.applyBalances rb l).map (fun e => e.date)
      = l.map (fun e => e.date) := by
  induction l generalizing rb with
  | nil => rfl
  | cons e rest ih =>
    cases he : e.type <;> simp [CustomerStatement.applyBalances, he, ih]

/-- Stamping balances preserves each entry's debit. -/
theorem applyBalances_map_debit (rb : ℚ) (l : List CustomerStatement.StatementEntry) :
    (CustomerStatement.applyBalances rb l).map (fun e => e.debit)
      = l.map (fun e => e.debit) := by
  induction l generalizing rb with
  | nil => rfl
  | cons e rest ih =>
    cases he : e.type <;> simp [CustomerStatement.applyBalances, he, ih]

/-- Stamping balances preserves each entry's credit. -/
theorem applyBalances_map_credit (rb : ℚ) (l : List CustomerStatement.StatementEntry) :
    (CustomerStatement.applyBalances rb l).map (fun e => e.credit)
      = l.map (fun e => e.credit) := by
  induction l generalizing rb with
  | nil => rfl
  | cons e rest ih =>
    cases he : e.type <;> simp [CustomerStatement.applyBalances, he, ih]

/-- Unfolding `applyBalances` on a disbursement head. -/
theorem applyBalances_cons_disb (rb : ℚ) (e : CustomerStatement.StatementEntry)
    (rest : List CustomerStatement.StatementEntry)
    (h : e.type = CustomerStatement.EntryType.loan_disbursement) :
    CustomerStatement.applyBalances rb (e :: rest)
      = { e with balance := rb + e.debit } ::
          CustomerStatement.applyBalances (rb + e.debit) rest := by
  conv_lhs => unfold CustomerStatement.applyBalances
  rw [h]

/-- Unfolding `applyBalances` on a payment head. -/
theorem applyBalances_cons_pay (rb : ℚ) (e : CustomerStatement.StatementEntry)
    (rest : List CustomerStatement.StatementEntry)
    (h : e.type = CustomerStatement.EntryType.payment_received) :
    CustomerStatement.applyBalances rb (e :: rest)
      = { e with balance := rb - e.credit } ::
          CustomerStatement.applyBalances (rb - e.credit) rest := by
  conv_lhs => unfold CustomerStatement.applyBalances
  rw [h]

/-- On entries that are genuine disbursements (credit 0) or payments
(debit 0), the stamped balance at position `i` is the start balance plus the
sum of debit-minus-credit over the first `i + 1` input entries. -/
theorem applyBalances_balance (l : List CustomerStatement.StatementEntry)
    (hwf : ∀ e ∈ l,
      (e.type = CustomerStatement.EntryType.loan_disbursement ∧ e.credit = 0) ∨
      (e.type = CustomerStatement.EntryType.payment_received ∧ e.debit = 0))
    (rb : ℚ) (i : ℕ) (hi : i < (CustomerStatement.applyBalances rb l).length) :
    ((CustomerStatement.applyBalances rb l).get ⟨i, hi⟩).balance
      = rb + ((l.take (i + 1)).map (fun e => e.debit - e.credit)).sum := by
  induction l generalizing rb i with
  | nil => simp [CustomerStatement.applyBalances] at hi
  | cons e rest ih =>
    have hrest : ∀ x ∈ rest,
        (x.type = CustomerStatement.EntryType.loan_disbursement ∧ x.credit = 0) ∨
        (x.type = CustomerStatement.EntryType.payment_received ∧ x.debit = 0) :=
      fun x hx => hwf x (by simp [hx])
    rcases hwf e (by simp) with ⟨hty, hc⟩ | ⟨hty, hd⟩
    · revert hi
      rw [applyBalances_cons_disb rb e rest hty]
      intro hi
      cases i with
      | zero =>
        have h0 : (({ e with balance := rb + e.debit } ::
            CustomerStatement.applyBalances (rb + e.debit) rest).get
              ⟨0, hi⟩).balance = rb + e.debit := rfl
        rw [h0, List.take_succ_cons, List.take_zero, List.map_cons, List.map_nil,
          List.sum_cons, List.sum_nil, hc]
        ring
      | succ n =>
        have hi' : n < (CustomerStatement.applyBalances (rb + e.debit) rest).length := by
          simpa using hi
        rw [List.get_cons_succ, ih hrest (rb + e.debit) n hi',
          List.take_succ_cons, List.map_cons, List.sum_cons, hc]
        ring
    · revert hi
      rw [applyBalances_cons_pay rb e rest hty]
      intro hi
      cases i with
      | zero =>
        have h0 : (({ e with balance := rb - e.credit } ::
            CustomerStatement.applyBalances (rb - e.credit) rest).get
              ⟨0, hi⟩).balance = rb - e.credit := rfl
        rw [h0, List.take_succ_cons, List.take_zero, List.map_cons, List.map_nil,
          List.sum_cons, List.sum_nil, hd]
        ring
      | succ n =>
        have hi' : n < (CustomerStatement.applyBalances (rb - e.credit) rest).length := by
          simpa using hi
        rw [List.get_cons_succ, ih hrest (rb - e.credit) n hi',
          List.take_succ_cons, List.map_cons, List.sum_cons, hd]
        ring

/-- Claim C9: the generated statement is listed in non-decreasing date
order, each entry's balance is the sum of the debits minus the sum of the
credits of the entries up to and including it, and in particular the last
entry's balance is total debits minus total credits (starting from zero). -/
theorem generateStatement_spec (loans : List Loan)
    (transactions : List CustomerStatement.STransaction)
    (startDate endDate : Option ℤ) :
    (((CustomerStatement.generateStatement loans transactions startDate endDate).map
        (fun e => e.date)).Sorted (· ≤ ·))
  ∧ (∀ (i : ℕ)
       (hi : i < (CustomerStatement.generateStatement loans transactions
                    startDate endDate).length),
       ((CustomerStatement.generateStatement loans transactions startDate
           endDate).get ⟨i, hi⟩).balance
         = (((CustomerStatement.generateStatement loans transactions startDate
               endDate).take (i + 1)).map (fun e => e.debit)).sum
           - (((CustomerStatement.generateStatement loans transactions startDate
                 endDate).take (i + 1)).map (fun e => e.credit)).sum)
  ∧ (∀ hne : CustomerStatement.generateStatement loans transactions startDate
               endDate ≠ [],
       ((CustomerStatement.generateStatement loans transactions startDate
           endDate).getLast hne).balance
         = ((CustomerStatement.generateStatement loans transactions startDate
              endDate).map (fun e => e.debit)).sum
           - ((CustomerStatement.generateStatement loans transactions startDate
                endDate).map (fun e => e.credit)).sum) := by
  have hgen : CustomerStatement.generateStatement loans transactions startDate endDate
      = CustomerStatement.applyBalances 0
          ((((loans.filter (fun l =>
                CustomerStatement.inRange startDate endDate l.loan_date.time)).map
              CustomerStatement.loanEntry) ++
            ((transactions.filter (fun t =>
                CustomerStatement.inRange startDate endDate t.payment_date.time)).map
              CustomerStatement.paymentEntry)).mergeSort
            (fun a b => decide (a.date ≤ b.date))) := rfl
  generalize hbase :
      (((loans.filter (fun l =>
           CustomerStatement.inRange startDate endDate l.loan_date.time)).map
         CustomerStatement.loanEntry) ++
       ((transactions.filter (fun t =>
           CustomerStatement.inRange startDate endDate t.payment_date.time)).map
         CustomerStatement.paymentEntry)) = base at hgen
  have hwf : ∀ e ∈ base.mergeSort (fun a b => decide (a.date ≤ b.date)),
      (e.type = CustomerStatement.EntryType.loan_disbursement ∧ e.credit = 0) ∨
      (e.type = CustomerStatement.EntryType.payment_received ∧ e.debit = 0) := by
    intro e he
    rw [List.mem_mergeSort, ← hbase, List.mem_append] at he
    rcases he with he | he
    · rcases List.mem_map.mp he with ⟨l, -, rfl⟩
      exact Or.inl ⟨rfl, rfl⟩
    · rcases List.mem_map.mp he with ⟨t, -, rfl⟩
      exact Or.inr ⟨rfl, rfl⟩
  have hpair : (base.mergeSort (fun a b => decide (a.date ≤ b.date))).Pairwise
      (fun a b => a.date ≤ b.date) := by
    have hp := @List.sorted_mergeSort CustomerStatement.StatementEntry
      (fun a b => decide (a.date ≤ b.date))
      (fun a b c h1 h2 => by
        simp only [decide_eq_true_eq] at h1 h2 ⊢
        exact le_trans h1 h2)
      (fun a b => by
        simpa [Bool.or_eq_true, decide_eq_true_eq] using le_total a.date b.date)
      base
    exact hp.imp (fun h => by simpa using h)
  have hbal : ∀ (i : ℕ)
      (hi : i < (CustomerStatement.generateStatement loans transactions
                   startDate endDate).length),
      ((CustomerStatement.generateStatement loans transactions startDate
          endDate).get ⟨i, hi⟩).balance
        = (((CustomerStatement.generateStatement loans transactions startDate
              endDate).take (i + 1)).map (fun e => e.debit)).sum
          - (((CustomerStatement.generateStatement loans transactions startDate
                endDate).take (i + 1)).map (fun e => e.credit)).sum := by
    intro i
    rw [hgen]
    intro hi
    rw [applyBalances_balance _ hwf 0 i hi, map_sub_sum, zero_add]
    simp only [List.map_take, applyBalances_map_debit, applyBalances_map_credit]
  refine ⟨?_, hbal, ?_⟩
  · rw [hgen, applyBalances_map_date]
    exact List.pairwise_map.mpr hpair
  · intro hne
    have hlen : 0 < (CustomerStatement.generateStatement loans transactions
        startDate endDate).length := List.length_pos.mpr hne
    have hlast : (CustomerStatement.generateStatement loans transactions startDate
        endDate).getLast hne
      = (CustomerStatement.generateStatement loans transactions startDate
          endDate).get ⟨(CustomerStatement.generateStatement loans transactions
            startDate endDate).length - 1, by omega⟩ :=
      List.getLast_eq_get _ hne
    rw [hlast, hbal _ (by omega),
      show (CustomerStatement.generateStatement loans transactions startDate
        endDate).length - 1 + 1 = (CustomerStatement.generateStatement loans
          transactions startDate endDate).length by omega,
      List.take_length]

/-- Stamping balances preserves the number of entries. -/
theorem applyBalances_length (rb : ℚ) (l : List CustomerStatement.StatementEntry) :
    (CustomerStatement.applyBalances rb l).length = l.length := by
  have h1 := congrArg List.length (applyBalances_map_date rb l)
  simpa using h1

/-- Witness for `generateStatement_spec`: the running-balance property of the
first entry of a concrete one-loan, one-payment statement. -/
theorem generateStatement_spec_witness :
    ((CustomerStatement.generateStatement [Sample.dailyLoan] [Sample.statementTxn]
        Option.none Option.none).get
      ⟨0, by simp [CustomerStatement.generateStatement, applyBalances_length,
        CustomerStatement.inRange]⟩).balance
      = (((CustomerStatement.generateStatement [Sample.dailyLoan]
            [Sample.statementTxn] Option.none Option.none).take (0 + 1)).map
          (fun e => e.debit)).sum
        - (((CustomerStatement.generateStatement [Sample.dailyLoan]
              [Sample.statementTxn] Option.none Option.none).take (0 + 1)).map
            (fun e => e.credit)).sum :=
  (generateStatement_spec [Sample.dailyLoan] [Sample.statementTxn]
    Option.none Option.none).2.1 0
    (by simp [CustomerStatement.generateStatement, applyBalances_length,
      CustomerStatement.inRange])
